import Mathlib

set_option maxRecDepth 100000

/-!
Shallow embedding of the zero-copy GPU buffer bridge of this repository
(mediapipe/gpu/gl_calculator_helper_impl_common.cc,
mediapipe/gpu/gpu_buffer_to_image_frame_calculator.cc,
mediapipe/examples/desktop/demo_run_graph_main_gpu.cc), together with
theorems settling the specification claims about it.

GL and EGL states are modelled as explicit records; GL, EGL and GBM enum
values are the numeric constants of the respective headers; platform calls
whose results the code branches on (eglClientWaitSync, gbm allocation,
eglCreateImage) are modelled as oracle inputs; a fatal CHECK is modelled as
the `none` outcome of an `Option`-valued function.
-/

/-! GL, EGL and GBM constants, by their numeric values in the headers. -/

def GL_NEAREST : Nat := 0x2600

def GL_LINEAR : Nat := 0x2601

def GL_CLAMP_TO_EDGE : Nat := 0x812F

def GL_R32F : Nat := 0x822E

def GL_RGBA32F : Nat := 0x8814

def GL_RGBA8 : Nat := 0x8058

def GL_TEXTURE_2D : Nat := 0x0DE1

def GL_TEXTURE_EXTERNAL_OES : Nat := 0x8D65

def EGL_TIMEOUT_EXPIRED : Nat := 0x30F5

def EGL_CONDITION_SATISFIED : Nat := 0x30F6

def EGL_FALSE : Nat := 0

def EGL_NO_SYNC : Nat := 0

def EGL_NO_IMAGE : Nat := 0

def GBM_FORMAT_ABGR8888 : Nat := 0x34324241

def GBM_FORMAT_BGR888 : Nat := 0x34324742

/-! Texture parameter state touched by glTexParameteri in
GlCalculatorHelperImpl::SetStandardTextureParams. -/

structure TexParams where
  minFilter : Nat
  magFilter : Nat
  wrapS : Nat
  wrapT : Nat
deriving DecidableEq, Repr

/-- Embedding of GlCalculatorHelperImpl::SetStandardTextureParams
(gl_calculator_helper_impl_common.cc, lines 128-145): the switch on the
internal format picks GL_NEAREST for GL_R32F and GL_RGBA32F and GL_LINEAR
for every other value, then the four glTexParameteri calls overwrite the
min filter, mag filter and both wrap axes of the bound texture. -/
def SetStandardTextureParams (internal_format : Nat) (p : TexParams) : TexParams :=
  let filter : Nat :=
    if internal_format = GL_R32F ∨ internal_format = GL_RGBA32F then GL_NEAREST
    else GL_LINEAR
  { p with
    minFilter := filter
    magFilter := filter
    wrapS := GL_CLAMP_TO_EDGE
    wrapT := GL_CLAMP_TO_EDGE }

/-- Claim C2: for every texture internal format, SetStandardTextureParams
yields nearest min and mag filtering exactly when the internal format is
GL_R32F or GL_RGBA32F, linear filtering for every other format, and
clamp-to-edge wrapping on both axes in all cases. -/
theorem setStandardTextureParams_filtering (internal_format : Nat) (p : TexParams) :
    ((SetStandardTextureParams internal_format p).minFilter = GL_NEAREST
      ↔ (internal_format = GL_R32F ∨ internal_format = GL_RGBA32F))
    ∧ ((SetStandardTextureParams internal_format p).magFilter = GL_NEAREST
      ↔ (internal_format = GL_R32F ∨ internal_format = GL_RGBA32F))
    ∧ ((SetStandardTextureParams internal_format p).minFilter = GL_LINEAR
      ↔ ¬ (internal_format = GL_R32F ∨ internal_format = GL_RGBA32F))
    ∧ ((SetStandardTextureParams internal_format p).magFilter = GL_LINEAR
      ↔ ¬ (internal_format = GL_R32F ∨ internal_format = GL_RGBA32F))
    ∧ (SetStandardTextureParams internal_format p).wrapS = GL_CLAMP_TO_EDGE
    ∧ (SetStandardTextureParams internal_format p).wrapT = GL_CLAMP_TO_EDGE := by
  unfold SetStandardTextureParams
  by_cases h : internal_format = GL_R32F ∨ internal_format = GL_RGBA32F <;>
    simp [h, GL_NEAREST, GL_LINEAR]

/-! GlCalculatorHelperImpl::ReadTexture
(gl_calculator_helper_impl_common.cc, lines 228-261). The GL state the
function reads and writes is the current framebuffer binding, the color
attachment of that framebuffer (glFramebufferTexture2D records a target and
an object name) and the viewport. A successful call also produces the
glReadPixels read, recorded as the dimensions read and the attachment that
was bound at the moment of the read; a fatal CHECK yields none and no read. -/

structure GlTexture where
  name : Nat
  target : Nat
  width : Nat
  height : Nat
deriving DecidableEq, Repr

structure FboAttachment where
  target : Nat
  name : Nat
deriving DecidableEq, Repr

structure GlState where
  boundFbo : Nat
  colorAttachment : FboAttachment
  viewport : Nat × Nat × Nat × Nat
deriving DecidableEq, Repr

structure ReadPixelsCall where
  width : Nat
  height : Nat
  attachment : FboAttachment
deriving DecidableEq, Repr

/-- Embedding of GlCalculatorHelperImpl::ReadTexture. In order: CHECK_GE on
the output size, CHECK_NE on the current framebuffer binding, then either a
direct glReadPixels when the texture already is the color attachment, or
save viewport / attach texture / read / restore viewport / re-attach the
saved attachment name with the hard-coded GL_TEXTURE_2D target. -/
def ReadTexture (st : GlState) (texture : GlTexture) (size : Nat) :
    Option (GlState × ReadPixelsCall) :=
  if ¬ size ≥ texture.width * texture.height * 4 then none
  else
    let current_fbo := st.boundFbo
    if current_fbo = 0 then none
    else
      let color_attachment_name := st.colorAttachment.name
      if color_attachment_name ≠ texture.name then
        let viewport := st.viewport
        let attached : FboAttachment := ⟨texture.target, texture.name⟩
        let st1 : GlState :=
          { st with viewport := (0, 0, texture.width, texture.height),
                    colorAttachment := attached }
        let read : ReadPixelsCall := ⟨texture.width, texture.height, attached⟩
        let st2 : GlState :=
          { st1 with viewport := viewport,
                     colorAttachment := ⟨GL_TEXTURE_2D, color_attachment_name⟩ }
        some (st2, read)
      else
        some (st, ⟨texture.width, texture.height, st.colorAttachment⟩)

/-- Claim C4: ReadTexture proceeds only when the output size is at least
width times height times 4; with a smaller output buffer it fails the fatal
size check and produces no read of the output buffer. -/
theorem readTexture_size_check (st : GlState) (texture : GlTexture) (size : Nat) :
    (∀ r, ReadTexture st texture size = some r
      → size ≥ texture.width * texture.height * 4)
    ∧ (size < texture.width * texture.height * 4
      → ReadTexture st texture size = none) := by
  constructor
  · intro r hr
    by_contra h
    simp only [ReadTexture, h, if_pos, not_false_eq_true, if_true] at hr
    exact Option.noConfusion hr
  · intro h
    have h2 : ¬ size ≥ texture.width * texture.height * 4 := Nat.not_le.mpr h
    simp only [ReadTexture, h2, not_false_eq_true, if_true]

/-- Witness for readTexture_size_check at a concrete state and texture. -/
theorem readTexture_size_check_witness :
    ReadTexture ⟨1, ⟨GL_TEXTURE_2D, 7⟩, (0, 0, 4, 4)⟩ ⟨5, GL_TEXTURE_2D, 4, 4⟩ 63 = none :=
  (readTexture_size_check ⟨1, ⟨GL_TEXTURE_2D, 7⟩, (0, 0, 4, 4)⟩
    ⟨5, GL_TEXTURE_2D, 4, 4⟩ 63).2 (by decide)

/-- Claim C10: ReadTexture requires a non-default framebuffer binding: when
the current binding is 0 it fails a fatal check and produces no read, and
every successful call has a non-zero binding. -/
theorem readTexture_requires_fbo (st : GlState) (texture : GlTexture) (size : Nat) :
    (st.boundFbo = 0 → ReadTexture st texture size = none)
    ∧ (∀ r, ReadTexture st texture size = some r → st.boundFbo ≠ 0) := by
  constructor
  · intro h0
    unfold ReadTexture
    by_cases hsz : ¬ size ≥ texture.width * texture.height * 4
    · simp [hsz]
    · simp [hsz, h0]
  · intro r hr h0
    simp only [ReadTexture, h0, if_pos, if_true] at hr
    by_cases hsz : ¬ size ≥ texture.width * texture.height * 4
    · simp [hsz] at hr
    · simp [hsz] at hr

/-- Witness for readTexture_requires_fbo: with the default framebuffer
bound the call fails even though the size precondition holds. -/
theorem readTexture_requires_fbo_witness :
    ReadTexture ⟨0, ⟨GL_TEXTURE_2D, 7⟩, (0, 0, 4, 4)⟩ ⟨5, GL_TEXTURE_2D, 4, 4⟩ 64 = none :=
  (readTexture_requires_fbo ⟨0, ⟨GL_TEXTURE_2D, 7⟩, (0, 0, 4, 4)⟩
    ⟨5, GL_TEXTURE_2D, 4, 4⟩ 64).1 (by decide)

/-- Claim C5 counterexample: ReadTexture restores only the attachment
object name and re-attaches it with the hard-coded GL_TEXTURE_2D target
(gl_calculator_helper_impl_common.cc, line 255), so when the previous
color attachment had a different texture target the attachment after the
call differs from the attachment before the call. -/
theorem readTexture_restore_counterexample :
    ReadTexture ⟨1, ⟨GL_TEXTURE_EXTERNAL_OES, 7⟩, (0, 0, 8, 8)⟩
        ⟨5, GL_TEXTURE_2D, 4, 4⟩ 64
      = some (⟨1, ⟨GL_TEXTURE_2D, 7⟩, (0, 0, 8, 8)⟩, ⟨4, 4, ⟨GL_TEXTURE_2D, 5⟩⟩)
    ∧ (⟨GL_TEXTURE_2D, 7⟩ : FboAttachment) ≠ ⟨GL_TEXTURE_EXTERNAL_OES, 7⟩ := by
  constructor
  · decide
  · decide

/-- Claim C5 amended: when the texture is not the current color attachment,
ReadTexture temporarily attaches it, reads, and restores the previous
viewport and the previous attachment object name, re-attaching that name
with the GL_TEXTURE_2D target; the full attachment state is restored
exactly whenever the previous attachment target was GL_TEXTURE_2D. When
the texture already is the current attachment, the state is untouched. -/
theorem readTexture_restore (st : GlState) (texture : GlTexture) (size : Nat)
    (st2 : GlState) (read : ReadPixelsCall)
    (h : ReadTexture st texture size = some (st2, read)) :
    (st.colorAttachment.name = texture.name
      → st2 = st ∧ read.attachment = st.colorAttachment)
    ∧ (st.colorAttachment.name ≠ texture.name →
        st2.boundFbo = st.boundFbo
        ∧ st2.viewport = st.viewport
        ∧ st2.colorAttachment = ⟨GL_TEXTURE_2D, st.colorAttachment.name⟩
        ∧ read.attachment = ⟨texture.target, texture.name⟩
        ∧ (st.colorAttachment.target = GL_TEXTURE_2D → st2 = st)) := by
  unfold ReadTexture at h
  by_cases hsz : ¬ size ≥ texture.width * texture.height * 4
  · simp [hsz] at h
  · by_cases hfbo : st.boundFbo = 0
    · simp [hsz, hfbo] at h
    · by_cases hne : st.colorAttachment.name = texture.name
      · simp only [hsz, hfbo, hne, ne_eq, not_true_eq_false, if_false, if_neg,
          not_false_eq_true, if_true, Option.some.injEq, Prod.mk.injEq] at h
        obtain ⟨h1, h2⟩ := h
        subst h1; subst h2
        exact ⟨fun _ => ⟨rfl, rfl⟩, fun hc => absurd hne hc⟩
      · simp only [hsz, hfbo, hne, ne_eq, not_false_eq_true, if_true, if_neg,
          Option.some.injEq, Prod.mk.injEq] at h
        obtain ⟨h1, h2⟩ := h
        subst h1; subst h2
        refine ⟨fun heq => absurd heq hne, fun _ => ⟨rfl, rfl, rfl, rfl, fun htgt => ?_⟩⟩
        obtain ⟨fbo, ⟨atgt, aname⟩, vp⟩ := st
        simp only at htgt
        simp [htgt]

/-- Witness for readTexture_restore: at a concrete call on the branch that
swaps the attachment, the viewport and attachment name are restored. -/
theorem readTexture_restore_witness :
    (⟨1, ⟨GL_TEXTURE_2D, 7⟩, (0, 0, 8, 8)⟩ : GlState)
        = ⟨1, ⟨GL_TEXTURE_2D, 7⟩, (0, 0, 8, 8)⟩ :=
  ((readTexture_restore ⟨1, ⟨GL_TEXTURE_2D, 7⟩, (0, 0, 8, 8)⟩
      ⟨5, GL_TEXTURE_2D, 4, 4⟩ 64
      ⟨1, ⟨GL_TEXTURE_2D, 7⟩, (0, 0, 8, 8)⟩ ⟨4, 4, ⟨GL_TEXTURE_2D, 5⟩⟩
      (by decide)).2 (by decide)).2.2.2.2 (by decide)

/-! GlCalculatorHelperImpl::WaitEGLSync
(gl_calculator_helper_impl_common.cc, lines 381-389). The loop body calls
eglClientWaitSync with a fixed 1-second timeout and repeats while the call
returns EGL_TIMEOUT_EXPIRED. The sequence of values eglClientWaitSync would
return on the successive calls is the oracle `results`; the loop is embedded
with a fuel bound so that non-termination of the do-while loop appears as
`none` for every fuel value. On a definite answer the embedding returns the
number of eglClientWaitSync calls made. -/

def WaitEGLSyncLoop (results : Nat → Nat) : Nat → Nat → Option Nat
  | 0, _ => none
  | fuel + 1, i =>
    let res := results i
    if res = EGL_TIMEOUT_EXPIRED then WaitEGLSyncLoop results fuel (i + 1)
    else some (i + 1)

/-- Embedding of GlCalculatorHelperImpl::WaitEGLSync: no call is made when
the sync handle is EGL_NO_SYNC; otherwise the do-while loop runs until
eglClientWaitSync returns anything other than EGL_TIMEOUT_EXPIRED. The
result is the number of eglClientWaitSync calls performed, or none when the
loop has not exited within `fuel` iterations. -/
def WaitEGLSync (sync : Nat) (results : Nat → Nat) (fuel : Nat) : Option Nat :=
  if sync ≠ EGL_NO_SYNC then WaitEGLSyncLoop results fuel 0
  else some 0

/-- Helper: on the all-timeout oracle the loop never exits, for any fuel
and any start index. -/
theorem waitEGLSyncLoop_all_timeout (fuel i : Nat) :
    WaitEGLSyncLoop (fun _ => EGL_TIMEOUT_EXPIRED) fuel i = none := by
  induction fuel generalizing i with
  | zero => rfl
  | succ n ih => simpa [WaitEGLSyncLoop] using ih (i + 1)

/-- Helper: when the first k oracle answers are timeout and answer k is
not, the loop started at 0 exits after exactly k+1 calls, given fuel
beyond k. -/
theorem waitEGLSyncLoop_first_exit (results : Nat → Nat) (k : Nat)
    (hbefore : ∀ j, j < k → results j = EGL_TIMEOUT_EXPIRED)
    (hk : results k ≠ EGL_TIMEOUT_EXPIRED) :
    ∀ fuel i, i ≤ k → k < i + fuel →
      WaitEGLSyncLoop results fuel i = some (k + 1) := by
  intro fuel
  induction fuel with
  | zero => intro i hik hlt; omega
  | succ n ih =>
    intro i hik hlt
    by_cases hi : i = k
    · subst hi
      simp [WaitEGLSyncLoop, hk]
    · have hi2 : i < k := Nat.lt_of_le_of_ne hik hi
      have : results i = EGL_TIMEOUT_EXPIRED := hbefore i hi2
      simp only [WaitEGLSyncLoop, this, if_pos, if_true]
      exact ih (i + 1) hi2 (by omega)

/-- Claim C3 counterexample: the wait loop of WaitEGLSync exits, and the
wait is treated as complete, on the first non-timeout return even when
that return is the error value EGL_FALSE (the code never distinguishes
errors from EGL_CONDITION_SATISFIED); and the retrying is not bounded by
any fixed count: after 1000 timeout answers the loop is still retrying. -/
theorem waitEGLSync_counterexample :
    WaitEGLSync 1 (fun _ => EGL_FALSE) 10 = some 1
    ∧ WaitEGLSync 1 (fun _ => EGL_TIMEOUT_EXPIRED) 1000 = none := by
  constructor
  · unfold WaitEGLSync
    rw [if_pos (by decide : (1 : Nat) ≠ EGL_NO_SYNC)]
    rw [WaitEGLSyncLoop]
    simp [EGL_FALSE, EGL_TIMEOUT_EXPIRED]
  · unfold WaitEGLSync
    rw [if_pos (by decide : (1 : Nat) ≠ EGL_NO_SYNC)]
    exact waitEGLSyncLoop_all_timeout 1000 0

/-- Claim C3 amended: for every fence, the wait retries while the platform
reports timeout expired, with no bound on the number of retries: if the
platform reports timeout forever the loop never exits, and otherwise the
loop exits after exactly the first non-timeout return, whether that return
is success or an error. -/
theorem waitEGLSync_retry (sync : Nat) (results : Nat → Nat) (k : Nat)
    (hsync : sync ≠ EGL_NO_SYNC)
    (hbefore : ∀ j, j < k → results j = EGL_TIMEOUT_EXPIRED)
    (hk : results k ≠ EGL_TIMEOUT_EXPIRED) :
    (∀ fuel, k < fuel → WaitEGLSync sync results fuel = some (k + 1))
    ∧ (∀ fuel, WaitEGLSync sync (fun _ => EGL_TIMEOUT_EXPIRED) fuel = none) := by
  constructor
  · intro fuel hlt
    unfold WaitEGLSync
    rw [if_pos hsync]
    exact waitEGLSyncLoop_first_exit results k hbefore hk fuel 0 (Nat.zero_le k)
      (by omega)
  · intro fuel
    unfold WaitEGLSync
    rw [if_pos hsync]
    exact waitEGLSyncLoop_all_timeout fuel 0

/-- Witness for waitEGLSync_retry: three timeout answers followed by a
satisfied answer make the wait return after four calls. -/
theorem waitEGLSync_retry_witness :
    WaitEGLSync 1 (fun i => if i < 3 then EGL_TIMEOUT_EXPIRED else EGL_CONDITION_SATISFIED)
      10 = some 4 :=
  (waitEGLSync_retry 1
    (fun i => if i < 3 then EGL_TIMEOUT_EXPIRED else EGL_CONDITION_SATISFIED) 3
    (by decide)
    (fun j hj => by simp [hj])
    (by decide)).1 10 (by decide)

/-! GlCalculatorHelperImpl::CreateEGLImageDMA
(gl_calculator_helper_impl_common.cc, lines 263-325). The GpuBufferFormat
enum of the wider repository: the two constructors handled by the switch
appear in the source under src, the remaining ones stand for the other
members of the enum (the spec calls it a closed, finite format set with
two supported members). Platform behaviour the function branches on
(gbm_device_is_format_supported, gbm_bo_create, gbm_bo_get_stride,
gbm_bo_get_fd, eglCreateImage) is an oracle record. -/

inductive GpuBufferFormat where
  | kBGRA32
  | kRGB24
  | kGrayscale8
  | kRGBAFloat128
deriving DecidableEq, Repr

/-- The switch of CreateEGLImageDMA: kBGRA32 maps to GBM_FORMAT_ABGR8888,
kRGB24 to GBM_FORMAT_BGR888, and every other format hits CHECK(false). -/
def gbmFormatFor : GpuBufferFormat → Option Nat
  | .kBGRA32 => some GBM_FORMAT_ABGR8888
  | .kRGB24 => some GBM_FORMAT_BGR888
  | _ => none

structure GbmPlatform where
  formatSupported : Nat → Bool
  boCreateOk : Bool
  boStride : Nat
  exportedFd : Int
  createdImage : Nat

/-- Embedding of GlCalculatorHelperImpl::CreateEGLImageDMA. In order: the
format switch (CHECK(false) on an unhandled format), the CHECK on
gbm_device_is_format_supported with GBM_BO_USE_RENDERING, the CHECK on
gbm_bo_create, the CHECK_GE on the exported dmabuf fd, and the CHECK_NE on
eglCreateImage; on success the out parameters image, dma_fd and stride
carry the created image, the exported descriptor and the buffer object
stride. -/
def CreateEGLImageDMA (p : GbmPlatform) (width height : Nat)
    (format : GpuBufferFormat) : Option (Nat × Int × Nat) :=
  match gbmFormatFor format with
  | none => none
  | some gbm_format =>
    if ¬ p.formatSupported gbm_format then none
    else if ¬ p.boCreateOk then none
    else
      let _stride := p.boStride
      let fd := p.exportedFd
      if ¬ fd ≥ 0 then none
      else if p.createdImage = EGL_NO_IMAGE then none
      else some (p.createdImage, fd, _stride)

/-- Claim C6: CreateEGLImageDMA accepts exactly the two formats kBGRA32 and
kRGB24: any other format fails fatally, a format the platform reports
unsupported for rendering fails fatally, and every success returns the
created image, the exported descriptor (a valid fd) and the buffer object
stride. -/
theorem createEGLImageDMA_formats (p : GbmPlatform) (width height : Nat)
    (format : GpuBufferFormat) :
    (format ≠ .kBGRA32 ∧ format ≠ .kRGB24
      → CreateEGLImageDMA p width height format = none)
    ∧ (∀ g, gbmFormatFor format = some g → p.formatSupported g = false
      → CreateEGLImageDMA p width height format = none)
    ∧ (∀ image dma_fd stride,
        CreateEGLImageDMA p width height format = some (image, dma_fd, stride)
        → (format = .kBGRA32 ∨ format = .kRGB24)
          ∧ image = p.createdImage ∧ image ≠ EGL_NO_IMAGE
          ∧ dma_fd = p.exportedFd ∧ dma_fd ≥ 0
          ∧ stride = p.boStride) := by
  refine ⟨?_, ?_, ?_⟩
  · rintro ⟨h1, h2⟩
    cases format with
    | kBGRA32 => exact absurd rfl h1
    | kRGB24 => exact absurd rfl h2
    | kGrayscale8 => rfl
    | kRGBAFloat128 => rfl
  · intro g hg hsup
    unfold CreateEGLImageDMA
    rw [hg]
    simp [hsup]
  · intro image dma_fd stride h
    have hfmt : format = .kBGRA32 ∨ format = .kRGB24 := by
      cases format with
      | kBGRA32 => exact Or.inl rfl
      | kRGB24 => exact Or.inr rfl
      | kGrayscale8 => exact absurd h (by simp [CreateEGLImageDMA, gbmFormatFor])
      | kRGBAFloat128 => exact absurd h (by simp [CreateEGLImageDMA, gbmFormatFor])
    refine ⟨hfmt, ?_⟩
    obtain ⟨g, hg⟩ : ∃ g, gbmFormatFor format = some g := by
      rcases hfmt with h | h <;> subst h <;> exact ⟨_, rfl⟩
    unfold CreateEGLImageDMA at h
    rw [hg] at h
    by_cases hs : ¬ p.formatSupported g
    · simp [hs] at h
    · by_cases hb : ¬ p.boCreateOk
      · simp [hs, hb] at h
      · by_cases hfd : ¬ p.exportedFd ≥ 0
        · simp [hs, hb, hfd] at h
        · by_cases him : p.createdImage = EGL_NO_IMAGE
          · simp [hs, hb, hfd, him] at h
          · simp only [hs, hb, hfd, him, if_false, not_false_eq_true, if_true,
              Option.some.injEq, Prod.mk.injEq] at h
            obtain ⟨h1, h2, h3⟩ := h
            exact ⟨h1.symm, h1 ▸ him, h2.symm, h2 ▸ (by omega : p.exportedFd ≥ 0),
              h3.symm⟩

/-- Witness for createEGLImageDMA_formats: an unsupported format fails on a
concrete platform where everything else would succeed. -/
theorem createEGLImageDMA_formats_witness :
    CreateEGLImageDMA ⟨fun _ => true, true, 2560, 11, 42⟩ 640 480 .kGrayscale8 = none :=
  (createEGLImageDMA_formats ⟨fun _ => true, true, 2560, 11, 42⟩ 640 480
    .kGrayscale8).1 ⟨by decide, by decide⟩

/-! GlCalculatorHelperImpl::DestroyEGLImageDMA (lines 327-336) and
GlCalculatorHelperImpl::UnmapDMA (lines 343-349). Both functions take
pointers to the handle variables and overwrite them; the embedding takes
the pointed-to values and returns the new values. The image handle is a
Nat with EGL_NO_IMAGE = 0; the descriptor is an Int as in the source; the
mapped pointer is an `Option Nat` with none for nullptr. The munmap call
inside the guard of UnmapDMA is CHECK-ed to succeed, so on the surviving
path the pointer is always cleared. -/

/-- Embedding of DestroyEGLImageDMA: eglDestroyImage and reset to
EGL_NO_IMAGE only when the image is not already EGL_NO_IMAGE; close and
reset to -1 only when the descriptor is strictly positive. -/
def DestroyEGLImageDMA (image : Nat) (dma_fd : Int) : Nat × Int :=
  let image2 := if image ≠ EGL_NO_IMAGE then EGL_NO_IMAGE else image
  let fd2 := if dma_fd > 0 then -1 else dma_fd
  (image2, fd2)

/-- Embedding of UnmapDMA: munmap and clear only when the pointer is
non-null. -/
def UnmapDMA (data : Option Nat) (size : Nat) : Option Nat :=
  if data.isSome then none else data

/-- Claim C7 counterexample: DestroyEGLImageDMA does not leave the
descriptor at -1 in every state: with an image already EGL_NO_IMAGE and a
descriptor of 0 (the initial dma_fd value of DmaTexture in
gpu_buffer_to_image_frame_calculator.cc, line 34), the call is a no-op and
the descriptor stays 0. -/
theorem destroyEGLImageDMA_counterexample :
    DestroyEGLImageDMA EGL_NO_IMAGE 0 = (EGL_NO_IMAGE, 0) ∧ (0 : Int) ≠ -1 := by
  constructor
  · decide
  · decide

/-- Claim C7 amended: DestroyEGLImageDMA and UnmapDMA are idempotent and
null-safe: calling either twice equals calling it once, and a call on an
already-null image, non-positive descriptor or null pointer leaves it
unchanged; after a call the image is EGL_NO_IMAGE and the mapped pointer is
null, and the descriptor is -1 when it was positive before the call and is
left unchanged (not set to -1) otherwise. -/
theorem destroyEGLImageDMA_unmapDMA_idempotent (image : Nat) (dma_fd : Int)
    (data : Option Nat) (size size2 : Nat) :
    (DestroyEGLImageDMA (DestroyEGLImageDMA image dma_fd).1
        (DestroyEGLImageDMA image dma_fd).2
      = DestroyEGLImageDMA image dma_fd)
    ∧ (image = EGL_NO_IMAGE → dma_fd ≤ 0
        → DestroyEGLImageDMA image dma_fd = (image, dma_fd))
    ∧ (DestroyEGLImageDMA image dma_fd).1 = EGL_NO_IMAGE
    ∧ (dma_fd > 0 → (DestroyEGLImageDMA image dma_fd).2 = -1)
    ∧ (dma_fd ≤ 0 → (DestroyEGLImageDMA image dma_fd).2 = dma_fd)
    ∧ UnmapDMA (UnmapDMA data size) size2 = UnmapDMA data size
    ∧ (data = none → UnmapDMA data size = data)
    ∧ UnmapDMA data size = none := by
  have heval : ∀ (i : Nat) (f : Int),
      DestroyEGLImageDMA i f = (EGL_NO_IMAGE, if f > 0 then -1 else f) := by
    intro i f
    unfold DestroyEGLImageDMA
    by_cases h : i ≠ EGL_NO_IMAGE
    · simp [h]
    · have : i = EGL_NO_IMAGE := not_not.mp h
      simp [h, this]
  have hun : UnmapDMA data size = none := by
    unfold UnmapDMA
    by_cases h : data.isSome
    · simp [h]
    · have : data = none := Option.not_isSome_iff_eq_none.mp h
      simp [this]
  have himg : (DestroyEGLImageDMA image dma_fd).1 = EGL_NO_IMAGE := by
    rw [heval]
  have hnone : data = none → UnmapDMA data size = data := by
    intro h
    rw [hun, h]
  refine ⟨?_, ?_, himg, ?_, ?_, ?_, hnone, hun⟩
  · rw [heval image dma_fd, heval EGL_NO_IMAGE, Prod.mk.injEq]
    refine ⟨rfl, ?_⟩
    by_cases h2 : dma_fd > 0
    · simp [h2]
    · simp [h2]
  · intro h1 h2
    rw [heval, h1, Prod.mk.injEq]
    exact ⟨rfl, by rw [if_neg (by omega : ¬ dma_fd > 0)]⟩
  · intro h
    rw [heval]
    simp [h]
  · intro h
    rw [heval]
    simp only
    rw [if_neg (by omega : ¬ dma_fd > 0)]
  · rw [hun]
    unfold UnmapDMA
    simp

/-- Witness for destroyEGLImageDMA_unmapDMA_idempotent at a live image, an
open descriptor and a non-null mapping. -/
theorem destroyEGLImageDMA_unmapDMA_idempotent_witness :
    DestroyEGLImageDMA 42 11 = (EGL_NO_IMAGE, -1) ∧ UnmapDMA (some 5) 640 = none := by
  have h := destroyEGLImageDMA_unmapDMA_idempotent 42 11 (some 5) 640 640
  refine ⟨?_, h.2.2.2.2.2.2.2⟩
  have h1 := h.2.2.1
  have h2 := h.2.2.2.1 (by decide)
  rw [Prod.ext_iff]
  exact ⟨h1, h2⟩

/-! DmaTexture and its destructor
(gpu_buffer_to_image_frame_calculator.cc, lines 31-54). The destructor
body is a fixed sequence of calls: glDeleteTextures, glDeleteFramebuffers,
DestroyEGLSync, UnmapDMA, DestroyEGLImageDMA. Each call is embedded as the
platform events it emits, conditional on the current handle values exactly
as the guards of the callees dictate (DestroyEGLSync acts only on a live
sync, UnmapDMA only on a non-null pointer, DestroyEGLImageDMA destroys the
image only when live and closes the descriptor only when positive). The
teardown ordering claim is stated over the emitted event trace. -/

inductive TeardownEvent where
  | deleteTex
  | deleteFb
  | destroySyncEv
  | munmapEv
  | destroyImageEv
  | closeFdEv
deriving DecidableEq, Repr

structure DmaTexture where
  image : Nat
  sync : Nat
  dma_fd : Int
  stride : Nat
  data : Option Nat
  map_size : Nat
  fb : Nat
  tex : Nat
deriving DecidableEq, Repr

/-- Platform events emitted by the DmaTexture destructor, in program
order: delete texture, delete framebuffer, DestroyEGLSync (eglDestroySync
only when the sync is live), UnmapDMA (munmap only when the pointer is
non-null), DestroyEGLImageDMA (eglDestroyImage only when the image is
live, close only when the descriptor is positive). -/
def dmaTextureDtorTrace (t : DmaTexture) : List TeardownEvent :=
  [TeardownEvent.deleteTex, TeardownEvent.deleteFb]
  ++ (if t.sync ≠ EGL_NO_SYNC then [TeardownEvent.destroySyncEv] else [])
  ++ (if t.data.isSome then [TeardownEvent.munmapEv] else [])
  ++ (if t.image ≠ EGL_NO_IMAGE then [TeardownEvent.destroyImageEv] else [])
  ++ (if t.dma_fd > 0 then [TeardownEvent.closeFdEv] else [])

/-- Event a occurs strictly before event b in the trace. -/
def OccursBefore (a b : TeardownEvent) (tr : List TeardownEvent) : Prop :=
  ∃ i j, i < j ∧ tr.get? i = some a ∧ tr.get? j = some b

/-- Helper: an element of the left list occurs before an element of the
right list in their concatenation. -/
theorem occursBefore_append_mem (a b : TeardownEvent) (l1 l2 : List TeardownEvent)
    (ha : a ∈ l1) (hb : b ∈ l2) : OccursBefore a b (l1 ++ l2) := by
  obtain ⟨⟨i, hi⟩, hga⟩ := List.mem_iff_get.mp ha
  obtain ⟨⟨j, hj⟩, hgb⟩ := List.mem_iff_get.mp hb
  refine ⟨i, l1.length + j, by omega, ?_, ?_⟩
  · rw [List.get?_append hi, List.get?_eq_get hi, hga]
  · rw [List.get?_append_right (by omega)]
    have hj2 : l1.length + j - l1.length = j := by omega
    rw [hj2, List.get?_eq_get hj, hgb]

/-- Helper: occurrence order is preserved by appending on the right. -/
theorem occursBefore_append_left (a b : TeardownEvent) (l1 l2 : List TeardownEvent)
    (h : OccursBefore a b l1) : OccursBefore a b (l1 ++ l2) := by
  obtain ⟨i, j, hij, ha, hb⟩ := h
  have hj : j < l1.length := (List.get?_eq_some.mp hb).1
  have hi : i < l1.length := by omega
  exact ⟨i, j, hij, by rw [List.get?_append hi]; exact ha,
    by rw [List.get?_append hj]; exact hb⟩

/-- Claim C8: in every DmaTexture destruction, the mapped pointer, when
non-null, is unmapped before the descriptor is closed, and the fence, when
live, is destroyed before the image is destroyed and before the descriptor
is closed: the teardown never closes the descriptor while the mapping is
live. -/
theorem dmaTextureDtor_ordering (t : DmaTexture) :
    (t.data.isSome → t.dma_fd > 0
      → OccursBefore TeardownEvent.munmapEv TeardownEvent.closeFdEv
          (dmaTextureDtorTrace t))
    ∧ (t.sync ≠ EGL_NO_SYNC → t.image ≠ EGL_NO_IMAGE
      → OccursBefore TeardownEvent.destroySyncEv TeardownEvent.destroyImageEv
          (dmaTextureDtorTrace t))
    ∧ (t.sync ≠ EGL_NO_SYNC → t.dma_fd > 0
      → OccursBefore TeardownEvent.destroySyncEv TeardownEvent.closeFdEv
          (dmaTextureDtorTrace t)) := by
  refine ⟨?_, ?_, ?_⟩
  · intro h1 h2
    unfold dmaTextureDtorTrace
    apply occursBefore_append_mem
    · simp [h1]
    · simp [h2]
  · intro h1 h2
    unfold dmaTextureDtorTrace
    apply occursBefore_append_left
    apply occursBefore_append_mem
    · simp [h1]
    · simp [h2]
  · intro h1 h2
    unfold dmaTextureDtorTrace
    apply occursBefore_append_mem
    · simp [h1]
    · simp [h2]

/-- Witness for dmaTextureDtor_ordering at a fully live DmaTexture. -/
theorem dmaTextureDtor_ordering_witness :
    OccursBefore TeardownEvent.munmapEv TeardownEvent.closeFdEv
      (dmaTextureDtorTrace ⟨9, 4, 11, 2560, some 5, 1228800, 3, 8⟩) :=
  (dmaTextureDtor_ordering ⟨9, 4, 11, 2560, some 5, 1228800, 3, 8⟩).1
    (by decide) (by decide)

/-! The Resource Recycler: the dma_texture_ single-slot cache of
GpuBufferToImageFrameCalculator (gpu_buffer_to_image_frame_calculator.cc).
Acquire is the slot logic of Process (lines 143-165): when dma_texture_ is
non-null it is taken as-is, with no comparison of its format or dimensions
against the request, and the slot is cleared; only when the slot is empty
is a new DmaTexture built through CreateEGLImageDMA for the requested
dimensions and format. Release is the deleter (lines 180-190): the bundle
returns to the slot when the slot is empty and is destroyed otherwise.
Each allocation is tagged with a fresh id and counted, so that claims about
how many platform buffer objects are allocated can be stated. -/

structure RecyclerBundle where
  width : Nat
  height : Nat
  format : GpuBufferFormat
  allocId : Nat
deriving DecidableEq, Repr

structure RecyclerState where
  slot : Option RecyclerBundle
  nextId : Nat
  allocCount : Nat
deriving DecidableEq, Repr

/-- The slot take-or-allocate logic of Process: reuse the cached bundle
unconditionally when present, otherwise allocate a fresh one for the
requested width, height and format. -/
def recyclerAcquire (st : RecyclerState) (width height : Nat)
    (format : GpuBufferFormat) : RecyclerBundle × RecyclerState :=
  match st.slot with
  | some texture => (texture, { st with slot := none })
  | none =>
    let texture : RecyclerBundle := ⟨width, height, format, st.nextId⟩
    (texture, { slot := none, nextId := st.nextId + 1,
                allocCount := st.allocCount + 1 })

/-- The deleter of the output ImageFrame: recycle into the empty slot, or
destroy the bundle when the slot is already occupied. -/
def recyclerRelease (st : RecyclerState) (texture : RecyclerBundle) : RecyclerState :=
  match st.slot with
  | none => { st with slot := some texture }
  | some _ => st

/-- One Process round for a fixed request: acquire then release. -/
def recyclerRound (width height : Nat) (format : GpuBufferFormat)
    (st : RecyclerState) : RecyclerState :=
  let (texture, st2) := recyclerAcquire st width height format
  recyclerRelease st2 texture

/-- N Process rounds for a fixed request. -/
def recyclerRounds (width height : Nat) (format : GpuBufferFormat) :
    Nat → RecyclerState → RecyclerState
  | 0, st => st
  | n + 1, st => recyclerRounds width height format n
      (recyclerRound width height format st)

/-- The recycler state before any frame: empty slot, nothing allocated. -/
def recyclerInit : RecyclerState := ⟨none, 0, 0⟩

/-- Helper: a round on a state whose slot holds a bundle gives back the
same state, in particular without allocating. -/
theorem recyclerRound_cached (width height : Nat) (format : GpuBufferFormat)
    (st : RecyclerState) (b : RecyclerBundle) (h : st.slot = some b) :
    recyclerRound width height format st = st := by
  unfold recyclerRound recyclerAcquire recyclerRelease
  rw [h]
  simp
  cases st
  simp_all

/-- Claim C1 counterexample: after acquiring at 640 by 480 kBGRA32 from the
fresh state and releasing, an acquire for the different request 1280 by 720
kRGB24 hands back the stale cached bundle, still carrying 640 by 480
kBGRA32, and allocates no new platform buffer object (the claim requires
the stale bundle to be discarded and exactly one new allocation). -/
theorem recycler_counterexample :
    (recyclerAcquire
        (recyclerRound 640 480 .kBGRA32 recyclerInit) 1280 720 .kRGB24).1
      = ⟨640, 480, .kBGRA32, 0⟩
    ∧ (recyclerAcquire
        (recyclerRound 640 480 .kBGRA32 recyclerInit) 1280 720 .kRGB24).2.allocCount
      = 1 := by
  constructor
  · rfl
  · rfl

/-- Claim C1 amended: acquiring N times with one fixed request, releasing
between the calls, allocates exactly one platform buffer object in total;
and an acquire that finds a cached bundle returns that bundle unchanged and
allocates nothing, whatever the requested format and dimensions: the stale
bundle is returned even for a non-matching request, and a new bundle is
allocated only when the slot is empty. -/
theorem recycler_single_allocation (width height : Nat) (format : GpuBufferFormat)
    (N : Nat) (hN : 1 ≤ N) :
    (recyclerRounds width height format N recyclerInit).allocCount = 1
    ∧ (∀ st b width2 height2 format2, st.slot = some b
        → recyclerAcquire st width2 height2 format2
          = (b, { st with slot := none })) := by
  constructor
  · obtain ⟨M, rfl⟩ : ∃ M, N = M + 1 := ⟨N - 1, by omega⟩
    have hfirst : recyclerRound width height format recyclerInit
        = ⟨some ⟨width, height, format, 0⟩, 1, 1⟩ := by
      rfl
    have hrest : ∀ K (st : RecyclerState) b, st.slot = some b
        → recyclerRounds width height format K st = st := by
      intro K
      induction K with
      | zero => intro st b h; rfl
      | succ n ih =>
        intro st b h
        unfold recyclerRounds
        rw [recyclerRound_cached width height format st b h]
        exact ih st b h
    unfold recyclerRounds
    rw [hfirst, hrest M ⟨some ⟨width, height, format, 0⟩, 1, 1⟩
      ⟨width, height, format, 0⟩ rfl]
  · intro st b width2 height2 format2 h
    unfold recyclerAcquire
    rw [h]

/-- Witness for recycler_single_allocation: three rounds at 640 by 480
kBGRA32 allocate exactly once. -/
theorem recycler_single_allocation_witness :
    (recyclerRounds 640 480 .kBGRA32 3 recyclerInit).allocCount = 1 :=
  (recycler_single_allocation 640 480 .kBGRA32 3 (by decide)).1

/-! GstWrapper::HandlePadProbeBuffer, rewrap step
(demo_run_graph_main_gpu.cc, lines 273-311). A GstBuffer carries stream
metadata (pts, dts, duration, offset, offset_end, buffer flags), a list of
memory blocks, and an optional video meta. The rewrap builds a fresh buffer
with gst_buffer_new, copies with gst_buffer_copy_into under
GST_BUFFER_COPY_FLAGS | GST_BUFFER_COPY_TIMESTAMPS (and not
GST_BUFFER_COPY_MEMORY), adds a video meta from the input's meta fields and
appends the single GstGLMemory wrapping the mediapipe output texture. -/

inductive GstMemory where
  | glMemory (texture_id : Nat)
  | sysMemory (bytes : List Nat)
deriving DecidableEq, Repr

structure GstVideoMeta where
  flags : Nat
  format : Nat
  width : Nat
  height : Nat
deriving DecidableEq, Repr

structure GstBuffer where
  pts : Nat
  dts : Nat
  duration : Nat
  offset : Nat
  offset_end : Nat
  flags : Nat
  memory : List GstMemory
  meta : Option GstVideoMeta
deriving DecidableEq, Repr

/-- gst_buffer_new: a fresh buffer with cleared metadata, no memory and no
meta. -/
def gst_buffer_new : GstBuffer := ⟨0, 0, 0, 0, 0, 0, [], none⟩

/-- gst_buffer_copy_into restricted to the copy flags the call site can
pass: FLAGS copies the buffer flags, TIMESTAMPS copies pts, dts, duration,
offset and offset_end, MEMORY appends the source memory blocks. -/
def gst_buffer_copy_into (dest src : GstBuffer)
    (copyFlags copyTimestamps copyMemory : Bool) : GstBuffer :=
  let d1 := if copyFlags then { dest with flags := src.flags } else dest
  let d2 := if copyTimestamps then
      { d1 with pts := src.pts, dts := src.dts, duration := src.duration,
                offset := src.offset, offset_end := src.offset_end }
    else d1
  if copyMemory then { d2 with memory := d2.memory ++ src.memory } else d2

/-- gst_buffer_add_video_meta. -/
def gst_buffer_add_video_meta (buf : GstBuffer) (flags format width height : Nat) :
    GstBuffer :=
  { buf with meta := some ⟨flags, format, width, height⟩ }

/-- gst_buffer_append_memory. -/
def gst_buffer_append_memory (buf : GstBuffer) (mem : GstMemory) : GstBuffer :=
  { buf with memory := buf.memory ++ [mem] }

/-- The REWRAPPED step of HandlePadProbeBuffer: given the input buffer and
the mediapipe output texture id, build the replacement buffer exactly as
lines 299-305 do: new buffer, copy_into with FLAGS and TIMESTAMPS only,
video meta from the input's meta fields, append the wrapped GL memory. -/
def HandlePadProbeBufferRewrap (in_buf : GstBuffer) (meta : GstVideoMeta)
    (out_tex_id : Nat) : GstBuffer :=
  let out1 := gst_buffer_copy_into gst_buffer_new in_buf true true false
  let out2 := gst_buffer_add_video_meta out1 meta.flags meta.format
    meta.width meta.height
  gst_buffer_append_memory out2 (GstMemory.glMemory out_tex_id)

/-- Claim C9: the replacement buffer of the REWRAPPED transition carries
the original buffer's timestamps (pts, dts, duration, offset, offset_end)
and flags exactly, and its video meta fields come from the original video
meta; its memory is exactly the single GL memory wrapping the output
texture, so no memory block of the original buffer (in particular no pixel
memory) is carried over or copied. -/
theorem handlePadProbeBufferRewrap_metadata (in_buf : GstBuffer)
    (meta : GstVideoMeta) (out_tex_id : Nat) :
    (HandlePadProbeBufferRewrap in_buf meta out_tex_id).pts = in_buf.pts
    ∧ (HandlePadProbeBufferRewrap in_buf meta out_tex_id).dts = in_buf.dts
    ∧ (HandlePadProbeBufferRewrap in_buf meta out_tex_id).duration = in_buf.duration
    ∧ (HandlePadProbeBufferRewrap in_buf meta out_tex_id).offset = in_buf.offset
    ∧ (HandlePadProbeBufferRewrap in_buf meta out_tex_id).offset_end
        = in_buf.offset_end
    ∧ (HandlePadProbeBufferRewrap in_buf meta out_tex_id).flags = in_buf.flags
    ∧ (HandlePadProbeBufferRewrap in_buf meta out_tex_id).meta = some meta
    ∧ (HandlePadProbeBufferRewrap in_buf meta out_tex_id).memory
        = [GstMemory.glMemory out_tex_id]
    ∧ ∀ bytes, GstMemory.sysMemory bytes
        ∉ (HandlePadProbeBufferRewrap in_buf meta out_tex_id).memory := by
  have heval : HandlePadProbeBufferRewrap in_buf meta out_tex_id
      = ⟨in_buf.pts, in_buf.dts, in_buf.duration, in_buf.offset,
         in_buf.offset_end, in_buf.flags, [GstMemory.glMemory out_tex_id],
         some ⟨meta.flags, meta.format, meta.width, meta.height⟩⟩ := by
    unfold HandlePadProbeBufferRewrap gst_buffer_copy_into gst_buffer_new
      gst_buffer_add_video_meta gst_buffer_append_memory
    simp
  rw [heval]
  refine ⟨rfl, rfl, rfl, rfl, rfl, rfl, ?_, rfl, ?_⟩
  · obtain ⟨f, fo, w, h⟩ := meta
    rfl
  · intro bytes hmem
    simp only [List.mem_singleton] at hmem
    exact GstMemory.noConfusion hmem
